import Mathlib

/-!
Shallow embedding of the progress-tracking core of the LocalSongs backend:
* `src/backend/src/api/v1/endpoints/progress.py` (single-job tracker, cancel
  endpoint, SSE progress stream),
* `src/backend/src/api/v1/endpoints/multi_download.py` (multi-file tracker,
  multi SSE stream),
* the multi-file download loops of `src/backend/src/services/playlist_service.py`.

Python dict snapshots become structures; the global stores become functions
`String → Option _`; wall-clock `timestamp` fields (from `time.time()`) are
omitted throughout, being environmental values no control flow reads.  Python
float divisions inside `_calculate_overall_progress` are modelled by exact
integer arithmetic (the float expression `a/t + b/t` equals the rational
`(a+b)/t`, and `int(·)` is truncation toward zero, i.e. `Int.div`).
-/

namespace LocalSongs

/-! ## Single-job tracker (`progress.py`) -/

/-- One snapshot stored in `progress_store[download_id]` by
`ProgressTracker.update` (the dict literal at progress.py lines 39-47;
the `timestamp` key is omitted, see the file comment). -/
structure SingleSnap where
  progress : Int
  status : String
  message : String
  error : Option String
  filename : Option String
  cancelled : Bool
deriving DecidableEq, Repr

/-- The global `progress_store` dictionary keyed by download id. -/
def SStore : Type := String → Option SingleSnap

/-- `ProgressTracker.__init__` fields (progress.py lines 28-34);
`cancelled` models `self._cancelled`. -/
structure ProgressTracker where
  download_id : String
  progress : Int
  status : String
  message : String
  error : Option String
  cancelled : Bool
deriving DecidableEq, Repr

/-- `ProgressTracker(download_id)` constructor. -/
def ProgressTracker.init (id : String) : ProgressTracker :=
  { download_id := id
    progress := 0
    status := "starting"
    message := "Iniciando descarga..."
    error := none
    cancelled := false }

/-- `ProgressTracker.update`: writes a full snapshot into the store,
with no validation of any argument. -/
def ProgressTracker.update (t : ProgressTracker) (store : SStore)
    (progress : Int) (status message : String)
    (error filename : Option String) : SStore :=
  fun j =>
    if j = t.download_id then
      some { progress := progress
             status := status
             message := message
             error := error
             filename := filename
             cancelled := t.cancelled }
    else store j

/-- `ProgressTracker.cancel`: sets `_cancelled` then calls
`update(0, "cancelled", "Descarga cancelada", "Operación cancelada por el usuario")`. -/
def ProgressTracker.cancel (t : ProgressTracker) (store : SStore) :
    ProgressTracker × SStore :=
  let t' := { t with cancelled := true }
  (t', t'.update store 0 "cancelled" "Descarga cancelada"
        (some "Operación cancelada por el usuario") none)

/-- `ProgressTracker.is_cancelled`: returns the local flag. -/
def ProgressTracker.is_cancelled (t : ProgressTracker) : Bool :=
  t.cancelled

/-- `get_progress_tracker` (progress.py lines 81-85): if the id is a key of
`progress_store`, return a freshly constructed `ProgressTracker(download_id)`,
otherwise `None`. -/
def get_progress_tracker (store : SStore) (id : String) :
    Option ProgressTracker :=
  if (store id).isSome then some (ProgressTracker.init id) else none

/-- The `cancel_download` endpoint (progress.py lines 215-240): when the id is
present it mutates the stored dict's `status`, `message` and `cancelled` keys
in place; otherwise 404 (modelled as `false` with the store unchanged). -/
def cancel_download (store : SStore) (id : String) : SStore × Bool :=
  match store id with
  | some d =>
      (fun j =>
        if j = id then
          some { d with
                  status := "cancelled"
                  message := "Descarga cancelada"
                  cancelled := true }
        else store j,
       true)
  | none => (store, false)

/-- Terminal statuses, per the spec's glossary ("completed, error, cancelled,
timeout"). -/
def isTerminal (s : String) : Bool :=
  s = "completed" || s = "error" || s = "cancelled" || s = "timeout"

/-! ## Multi-file tracker (`multi_download.py`) -/

/-- One entry of `self.files_info` (the dict appended / assigned in
`update_current_file`, multi_download.py lines 80-96).  Placeholder entries
carry no `message` key, which is modelled by `message = none`. -/
structure FileInfo where
  index : Nat
  name : String
  status : String
  progress : Int
  error : Option String
  message : Option String
deriving DecidableEq, Repr

/-- One snapshot stored in `multi_download_store[download_id]`
(the dict literal repeated at multi_download.py lines 54-69, 98-113, 133-148;
`timestamp` omitted, see file comment). -/
structure MultiSnap where
  download_id : String
  total_files : Nat
  completed_files : Nat
  failed_files : Nat
  current_file_index : Nat
  current_file_progress : Int
  current_file_name : String
  current_file_status : String
  overall_progress : Int
  overall_status : String
  message : String
  error : Option String
  files_info : List FileInfo
deriving DecidableEq, Repr

/-- The global `multi_download_store` dictionary. -/
def MStore : Type := String → Option MultiSnap

/-- `MultiFileProgressTracker.__init__` fields (multi_download.py
lines 34-45). -/
structure MultiFileProgressTracker where
  download_id : String
  total_files : Nat
  completed_files : Nat
  failed_files : Nat
  current_file_index : Nat
  current_file_progress : Int
  current_file_name : String
  current_file_status : String
  files_info : List FileInfo
  overall_status : String
  error : Option String
deriving DecidableEq, Repr

namespace MultiFileProgressTracker

/-- `MultiFileProgressTracker(download_id, total_files)` constructor. -/
def init (id : String) (total : Nat) : MultiFileProgressTracker :=
  { download_id := id
    total_files := total
    completed_files := 0
    failed_files := 0
    current_file_index := 0
    current_file_progress := 0
    current_file_name := ""
    current_file_status := "preparing"
    files_info := []
    overall_status := "starting"
    error := none }

/-- `_calculate_overall_progress` (multi_download.py lines 150-161):
`min(int(completed_files*100/total_files + current_file_progress/total_files), 100)`
with a divide-by-zero guard.  The two float divisions sum exactly to the
rational `(completed_files*100 + current_file_progress) / total_files`, and
Python's `int(·)` truncates toward zero, which is `Int.tdiv`. -/
def calculate_overall_progress (st : MultiFileProgressTracker) : Int :=
  if st.total_files = 0 then 0
  else
    min (Int.tdiv ((st.completed_files : Int) * 100 + st.current_file_progress)
          (st.total_files : Int)) 100

/-- Python truthiness of the `error` argument (`if error:` at
multi_download.py line 51): `None` and `""` are falsy. -/
def errTruthy : Option String → Bool
  | none => false
  | some s => !(s = "")

/-- `update_overall(status, message, error)` (multi_download.py lines 47-69):
mutates `overall_status` (and `error` when truthy) and returns the snapshot
written to the store.  Note the snapshot's `error` key holds the *argument*,
not `self.error`. -/
def update_overall (st : MultiFileProgressTracker)
    (status : String) (message : String) (error : Option String) :
    MultiFileProgressTracker × MultiSnap :=
  let st' := { st with
                overall_status := status
                error := if errTruthy error then error else st.error }
  (st',
   { download_id := st'.download_id
     total_files := st'.total_files
     completed_files := st'.completed_files
     failed_files := st'.failed_files
     current_file_index := st'.current_file_index
     current_file_progress := st'.current_file_progress
     current_file_name := st'.current_file_name
     current_file_status := st'.current_file_status
     overall_progress := calculate_overall_progress st'
     overall_status := st'.overall_status
     message := message
     error := error
     files_info := st'.files_info })

/-- The `while len(self.files_info) <= file_index` growth loop of
`update_current_file` (multi_download.py lines 80-87): append placeholder
entries until the length exceeds `target - 1` (i.e. reaches `target`). -/
def padTo (l : List FileInfo) (target : Nat) : List FileInfo :=
  if l.length < target then
    padTo (l ++ [{ index := l.length
                   name := ""
                   status := "pending"
                   progress := 0
                   error := none
                   message := none }]) target
  else l
termination_by target - l.length
decreasing_by simp [List.length_append]; omega

/-- `update_current_file(file_index, file_name, progress, status, message)`
(multi_download.py lines 71-113): sets the four `current_file_*` fields, grows
`files_info` and overwrites entry `file_index`, and returns the snapshot
written to the store. -/
def update_current_file (st : MultiFileProgressTracker)
    (file_index : Nat) (file_name : String) (progress : Int)
    (status : String) (message : String) :
    MultiFileProgressTracker × MultiSnap :=
  let st' := { st with
                current_file_index := file_index
                current_file_name := file_name
                current_file_progress := progress
                current_file_status := status
                files_info :=
                  (padTo st.files_info (file_index + 1)).set file_index
                    { index := file_index
                      name := file_name
                      status := status
                      progress := progress
                      error := none
                      message := some message } }
  (st',
   { download_id := st'.download_id
     total_files := st'.total_files
     completed_files := st'.completed_files
     failed_files := st'.failed_files
     current_file_index := st'.current_file_index
     current_file_progress := st'.current_file_progress
     current_file_name := st'.current_file_name
     current_file_status := st'.current_file_status
     overall_progress := calculate_overall_progress st'
     overall_status := st'.overall_status
     message := "Descargando " ++ file_name ++ " (" ++
                toString (file_index + 1) ++ "/" ++ toString st'.total_files ++ ")"
     error := st'.error
     files_info := st'.files_info })

/-- In-place update of one list entry, no-op when the index is out of range
(models the `if file_index < len(self.files_info)` guard of `complete_file`). -/
def modifyAt : List FileInfo → Nat → (FileInfo → FileInfo) → List FileInfo
  | [], _, _ => []
  | a :: as, 0, f => f a :: as
  | a :: as, n + 1, f => a :: modifyAt as n f

/-- `complete_file(file_index, file_name, success, error)` (multi_download.py
lines 115-148): increments `completed_files` or `failed_files`, updates the
`files_info` entry when the index is in range, and returns the snapshot
written to the store. -/
def complete_file (st : MultiFileProgressTracker)
    (file_index : Nat) (file_name : String) (success : Bool)
    (error : Option String) :
    MultiFileProgressTracker × MultiSnap :=
  let status := if success then "completed" else "failed"
  let st' := { st with
                completed_files :=
                  if success then st.completed_files + 1 else st.completed_files
                failed_files :=
                  if success then st.failed_files else st.failed_files + 1
                files_info :=
                  modifyAt st.files_info file_index fun fi =>
                    { fi with
                       status := status
                       progress := if success then 100 else 0
                       error := error } }
  (st',
   { download_id := st'.download_id
     total_files := st'.total_files
     completed_files := st'.completed_files
     failed_files := st'.failed_files
     current_file_index := st'.current_file_index
     current_file_progress := st'.current_file_progress
     current_file_name := st'.current_file_name
     current_file_status := st'.current_file_status
     overall_progress := calculate_overall_progress st'
     overall_status := st'.overall_status
     message := if success then "Completado: " ++ file_name
                else "Error: " ++ file_name
     error := st'.error
     files_info := st'.files_info })

end MultiFileProgressTracker

/-- `multi_download_store[self.download_id] = snapshot`. -/
def writeM (store : MStore) (id : String) (snap : MultiSnap) : MStore :=
  fun j => if j = id then some snap else store j

/-- The `update_current_file` / `complete_file` calls a runner may issue
against one tracker (the call surface quantified over by the spec's
testable properties). -/
inductive MCall where
  | ucf (i : Nat) (name : String) (progress : Int) (status message : String)
  | cf (i : Nat) (name : String) (success : Bool) (error : Option String)
deriving DecidableEq, Repr

/-- Apply one call to a tracker, returning the new tracker state and the
snapshot it writes. -/
def stepM (st : MultiFileProgressTracker) :
    MCall → MultiFileProgressTracker × MultiSnap
  | .ucf i name progress status message =>
      st.update_current_file i name progress status message
  | .cf i name success error =>
      st.complete_file i name success error

/-- Run a call sequence, collecting the snapshots written to the store in
order. -/
def runM (st : MultiFileProgressTracker) :
    List MCall → MultiFileProgressTracker × List MultiSnap
  | [] => (st, [])
  | c :: cs =>
      let (st', snap) := stepM st c
      let (stf, snaps) := runM st' cs
      (stf, snap :: snaps)

/-- Run a call sequence against the store as well (each call ends with
`multi_download_store[download_id] = snapshot`). -/
def runMStore (st : MultiFileProgressTracker) (store : MStore) :
    List MCall → MultiFileProgressTracker × MStore
  | [] => (st, store)
  | c :: cs =>
      let (st', snap) := stepM st c
      runMStore st' (writeM store st'.download_id snap) cs

/-! ## SSE progress streams

The generators poll the store once per iteration.  A concurrent writer may
change the store between polls, so the environment is a function from the
iteration number to the entry observed at that poll.  Each emitted SSE `data:`
dict is modelled by the two fields every claim talks about. -/

/-- One emitted SSE event (its `progress`/`overall_progress` and
`status`/`overall_status` entries). -/
structure Ev where
  progress : Int
  status : String
deriving DecidableEq, Repr

/-- Statuses on which the single-file stream's loop breaks
(progress.py lines 136-143): `['completed', 'success']` and
`['error', 'failed']`. -/
def breaksSingle (s : String) : Bool :=
  s = "completed" || s = "success" || s = "error" || s = "failed"

/-- Statuses on which the multi-file stream's loop breaks
(multi_download.py line 245). -/
def breaksMulti (s : String) : Bool :=
  s = "completed" || s = "success" || s = "error" || s = "failed" ||
  s = "cancelled"

/-- The `while iteration < max_iterations` loop of `generate_progress_stream`
(progress.py lines 115-146), with `fuel = 600 - iteration` remaining polls.
A missing entry yields `{'progress': 100, 'status': 'completed', ...}` and
breaks; otherwise the snapshot is emitted when its progress changed or on the
first iteration, a terminal `completed`/`success` snapshot is emitted once
more (with download-url fields added) before breaking, and `error`/`failed`
breaks without a further emission. -/
def streamLoopS (store : Nat → Option SingleSnap) :
    Int → Nat → Nat → List Ev
  | _, _, 0 => []
  | last, iter, fuel + 1 =>
    match store iter with
    | none => [{ progress := 100, status := "completed" }]
    | some d =>
      let emitted : List Ev :=
        if d.progress ≠ last ∨ iter = 0 then
          [{ progress := d.progress, status := d.status }]
        else []
      let last' : Int :=
        if d.progress ≠ last ∨ iter = 0 then d.progress else last
      if d.status = "completed" ∨ d.status = "success" then
        emitted ++ [{ progress := d.progress, status := d.status }]
      else if d.status = "error" ∨ d.status = "failed" then
        emitted
      else
        emitted ++ streamLoopS store last' (iter + 1) fuel

/-- `generate_progress_stream` (progress.py lines 112-149): run the loop with
`last_progress = -1`, `iteration = 0`, `max_iterations = 600`, then emit the
unconditional final `{'progress': 100, 'status': 'stream_ended', ...}`
event. -/
def generate_progress_stream (store : Nat → Option SingleSnap) : List Ev :=
  streamLoopS store (-1) 0 600 ++ [{ progress := 100, status := "stream_ended" }]

/-- The `while iteration < max_iterations` loop of
`generate_multi_progress_stream` (multi_download.py lines 228-253), with
`fuel = 1800 - iteration` remaining polls.  When the loop runs out of fuel
(so `iteration >= max_iterations` holds after it), the synthetic
`{'overall_progress': 0, 'overall_status': 'timeout', ...}` event is emitted;
a `break` path skips it. -/
def streamLoopMulti (store : Nat → Option MultiSnap) :
    Int → Nat → Nat → List Ev
  | _, _, 0 => [{ progress := 0, status := "timeout" }]
  | last, iter, fuel + 1 =>
    match store iter with
    | none => [{ progress := 100, status := "completed" }]
    | some d =>
      let emitted : List Ev :=
        if d.overall_progress ≠ last ∨ iter = 0 ∨ iter % 5 = 0 then
          [{ progress := d.overall_progress, status := d.overall_status }]
        else []
      let last' : Int :=
        if d.overall_progress ≠ last ∨ iter = 0 ∨ iter % 5 = 0 then
          d.overall_progress
        else last
      if d.overall_status = "completed" ∨ d.overall_status = "success" ∨
          d.overall_status = "error" ∨ d.overall_status = "failed" ∨
          d.overall_status = "cancelled" then
        emitted ++ [{ progress := d.overall_progress, status := d.overall_status }]
      else
        emitted ++ streamLoopMulti store last' (iter + 1) fuel

/-- `generate_multi_progress_stream` (multi_download.py lines 221-253). -/
def generate_multi_progress_stream (store : Nat → Option MultiSnap) : List Ev :=
  streamLoopMulti store (-1) 0 1800

/-! ## Multi-file download pipeline (`playlist_service.py`)

`_download_spotify_multiple` reads the external tool's stdout line by line
and drives a `MultiFileProgressTracker`; the lines themselves are opaque
environment input.  Substring tests (`"Downloaded" in line`) are modelled on
the character lists. -/

/-- `p` is a prefix of `l` (character-list version of Python's
`str.startswith`, used to build the substring test). -/
def startsWithL : List Char → List Char → Bool
  | _, [] => true
  | [], _ :: _ => false
  | c :: cs, p :: ps => c == p && startsWithL cs ps

/-- `p` occurs as a contiguous substring of `l` (Python's `in` on
strings). -/
def containsL : List Char → List Char → Bool
  | [], p => startsWithL [] p
  | c :: cs, p => startsWithL (c :: cs) p || containsL cs p

/-- Python's `pat in s` substring test. -/
def strContains (s pat : String) : Bool := containsL s.data pat.data

/-- Python's `line.strip()`: remove leading and trailing whitespace. -/
def pyStrip (s : String) : String :=
  ⟨((s.data.dropWhile Char.isWhitespace).reverse.dropWhile
      Char.isWhitespace).reverse⟩

/-- The local loop state of `_download_spotify_multiple` (playlist_service.py
lines 296-301, 324): the local counters, the cursor, the tracker object and
the store it writes through. -/
structure SpotLoopState where
  completed_files : Nat
  failed_files : Nat
  current_file_index : Nat
  tracker : MultiFileProgressTracker
  store : MStore

/-- One iteration of the `for line in process.stdout` loop
(playlist_service.py lines 326-345): blank lines are skipped; a line
containing `Downloaded` or `Skipping` completes the current file (success
exactly when it contains `Downloaded`) and advances the cursor, provided the
cursor is below `total_files`; any other line updates the current file at
fixed progress 50. -/
def spotdlLine (total : Nat) (tracks : List String)
    (s : SpotLoopState) (rawLine : String) : SpotLoopState :=
  let line := pyStrip rawLine
  if line = "" then s
  else if strContains line "Downloaded" || strContains line "Skipping" then
    if s.current_file_index < total then
      let name := tracks.getD s.current_file_index
        ("Track " ++ toString (s.current_file_index + 1))
      let (st', snap) := s.tracker.complete_file s.current_file_index name
        (strContains line "Downloaded") none
      { completed_files :=
          if strContains line "Downloaded" then s.completed_files + 1
          else s.completed_files
        failed_files :=
          if strContains line "Downloaded" then s.failed_files
          else s.failed_files + 1
        current_file_index := s.current_file_index + 1
        tracker := st'
        store := writeM s.store st'.download_id snap }
    else s
  else if s.current_file_index < total then
    let name := tracks.getD s.current_file_index
      ("Track " ++ toString (s.current_file_index + 1))
    let (st', snap) := s.tracker.update_current_file s.current_file_index name
      50 "downloading" line
    { s with tracker := st', store := writeM s.store st'.download_id snap }
  else s

/-- `_download_spotify_multiple` (playlist_service.py lines 292-373) on a
given tracker and stdout transcript: the initial `update_overall`, the line
loop, then `success = completed_files > 0` deciding the final
`update_overall("completed", ...)` versus `update_overall("failed", ...)`. -/
def download_spotify_multiple (st0 : MultiFileProgressTracker) (store0 : MStore)
    (total : Nat) (tracks : List String) (lines : List String) : SpotLoopState :=
  let (st1, snap1) := st0.update_overall "downloading"
    ("Descargando " ++ toString total ++ " archivos de Spotify") none
  let s0 : SpotLoopState :=
    { completed_files := 0
      failed_files := 0
      current_file_index := 0
      tracker := st1
      store := writeM store0 st1.download_id snap1 }
  let s1 := lines.foldl (spotdlLine total tracks) s0
  let success := 0 < s1.completed_files
  let (st2, snap2) :=
    if success then
      s1.tracker.update_overall "completed"
        ("Completado: " ++ toString s1.completed_files ++ "/" ++
         toString total ++ " archivos") none
    else
      s1.tracker.update_overall "failed" "No se descargó ningún archivo" none
  { s1 with tracker := st2, store := writeM s1.store st2.download_id snap2 }

/-- The completion bookkeeping of `_download_youtube_multiple`
(playlist_service.py lines 465-472): `failed_files = total - completed`,
`success = completed_files > 0`, and the matching final `update_overall`. -/
def youtube_finalize (st : MultiFileProgressTracker) (store : MStore)
    (completed_files total_files : Nat) : MStore :=
  let success := 0 < completed_files
  let (st', snap) :=
    if success then
      st.update_overall "completed"
        ("Completado: " ++ toString completed_files ++ "/" ++
         toString total_files ++ " archivos") none
    else
      st.update_overall "failed" "No se descargó ningún archivo" none
  writeM store st'.download_id snap

/-! ## Spec-side definitions (for refinement comparisons only) -/

/-- Modelled from the spec (§3 invariant), for comparison with
`calculate_overall_progress`:
`overall_progress = min(100, floor(completed_files*100/total_files +
current_file_progress/total_files))` when `total_files > 0`, else `0`.
`Int.fdiv` is floor division. -/
def specOverallProgress (completed : Nat) (cfp : Int) (total : Nat) : Int :=
  if total = 0 then 0
  else min 100 (Int.fdiv ((completed : Int) * 100 + cfp) (total : Int))

/-- An `update_current_file` call whose `progress` argument lies in
`[0, 100]` (any `complete_file` call qualifies). -/
def progressArgOk : MCall → Bool
  | .ucf _ _ p _ _ => decide (0 ≤ p ∧ p ≤ 100)
  | .cf _ _ _ _ => true

/-- Recognizes `complete_file` calls (used to count them). -/
def isCompleteFileCall : MCall → Bool
  | .cf _ _ _ _ => true
  | .ucf _ _ _ _ _ => false

/-! ## Helper lemmas -/

theorem calc_overall_eq_spec (st : MultiFileProgressTracker)
    (h : 0 ≤ st.current_file_progress) :
    st.calculate_overall_progress =
      specOverallProgress st.completed_files st.current_file_progress
        st.total_files := by
  unfold MultiFileProgressTracker.calculate_overall_progress specOverallProgress
  by_cases htf : st.total_files = 0
  · simp [htf]
  · have hN : (0 : Int) ≤ (st.completed_files : Int) * 100 +
        st.current_file_progress := by positivity
    have hT : (0 : Int) ≤ (st.total_files : Int) := Int.natCast_nonneg _
    simp only [htf, if_false]
    rw [Int.fdiv_eq_tdiv hN hT, min_comm]

theorem calc_overall_bounds (st : MultiFileProgressTracker)
    (h : 0 ≤ st.current_file_progress) :
    0 ≤ st.calculate_overall_progress ∧ st.calculate_overall_progress ≤ 100 := by
  unfold MultiFileProgressTracker.calculate_overall_progress
  by_cases htf : st.total_files = 0
  · simp [htf]
  · have hN : (0 : Int) ≤ (st.completed_files : Int) * 100 +
        st.current_file_progress := by positivity
    have hT : (0 : Int) ≤ (st.total_files : Int) := Int.natCast_nonneg _
    simp only [htf, if_false]
    exact ⟨le_min (Int.tdiv_nonneg hN hT) (by norm_num), min_le_right _ _⟩

/-! ## C1 -/

/-- C1: every snapshot a `MultiFileProgressTracker` call writes to the store
carries `overall_progress = min(100, floor(completed_files*100/total_files +
current_file_progress/total_files))` when `total_files > 0` and `0` when
`total_files = 0` (given a nonnegative current-file progress, where Python's
truncating `int(·)` agrees with `floor`); and in the concrete scenario with
`total_files = 4`, after `complete_file(0, _, True)`, `complete_file(1, _,
True)` and `update_current_file(2, "x", 50, "downloading")`, the stored
`overall_progress` is exactly 62. -/
theorem c1_overall_progress_formula :
    (∀ (st : MultiFileProgressTracker) (c : MCall),
      0 ≤ ((stepM st c).2).current_file_progress →
      ((stepM st c).2).overall_progress =
        specOverallProgress ((stepM st c).2).completed_files
          ((stepM st c).2).current_file_progress
          ((stepM st c).2).total_files) ∧
    (∀ (st : MultiFileProgressTracker) (status message : String)
        (err : Option String),
      0 ≤ ((st.update_overall status message err).2).current_file_progress →
      ((st.update_overall status message err).2).overall_progress =
        specOverallProgress
          ((st.update_overall status message err).2).completed_files
          ((st.update_overall status message err).2).current_file_progress
          ((st.update_overall status message err).2).total_files) ∧
    (((runMStore (MultiFileProgressTracker.init "job" 4) (fun _ => none)
        [MCall.cf 0 "song0" true none, MCall.cf 1 "song1" true none,
         MCall.ucf 2 "x" 50 "downloading" ""]).2 "job").map
      (·.overall_progress)) = some 62 := by
  refine ⟨?_, ?_, by decide⟩
  · intro st c h
    cases c <;> exact calc_overall_eq_spec _ h
  · intro st status message err h
    exact calc_overall_eq_spec _ h

/-- Witness for C1 at a concrete input. -/
theorem c1_overall_progress_formula_witness :
    (0 : Int) ≤ (((MultiFileProgressTracker.init "wit" 4).update_current_file
        2 "x" 50 "downloading" "").2).current_file_progress ∧
    (((MultiFileProgressTracker.init "wit" 4).update_current_file
        2 "x" 50 "downloading" "").2).overall_progress =
      specOverallProgress
        (((MultiFileProgressTracker.init "wit" 4).update_current_file
            2 "x" 50 "downloading" "").2).completed_files
        (((MultiFileProgressTracker.init "wit" 4).update_current_file
            2 "x" 50 "downloading" "").2).current_file_progress
        (((MultiFileProgressTracker.init "wit" 4).update_current_file
            2 "x" 50 "downloading" "").2).total_files :=
  ⟨by decide,
   c1_overall_progress_formula.1 (MultiFileProgressTracker.init "wit" 4)
     (MCall.ucf 2 "x" 50 "downloading" "") (by decide)⟩

/-! ## C2 -/

theorem stepM_snap_overall (st : MultiFileProgressTracker) (c : MCall) :
    ((stepM st c).2).overall_progress =
      ((stepM st c).1).calculate_overall_progress := by
  cases c <;> rfl

theorem stepM_snap_counters (st : MultiFileProgressTracker) (c : MCall) :
    ((stepM st c).2).completed_files = ((stepM st c).1).completed_files ∧
    ((stepM st c).2).failed_files = ((stepM st c).1).failed_files ∧
    ((stepM st c).2).current_file_progress =
      ((stepM st c).1).current_file_progress := by
  cases c <;> exact ⟨rfl, rfl, rfl⟩

theorem stepM_cfp_nonneg (st : MultiFileProgressTracker) (c : MCall)
    (h0 : 0 ≤ st.current_file_progress) (hc : progressArgOk c = true) :
    0 ≤ ((stepM st c).1).current_file_progress := by
  cases c with
  | ucf i n p s m =>
      simp only [progressArgOk, decide_eq_true_eq] at hc
      exact hc.1
  | cf i n success e => exact h0

theorem runM_overall_bounds (calls : List MCall) :
    ∀ st : MultiFileProgressTracker, calls.all progressArgOk = true →
      0 ≤ st.current_file_progress →
      ∀ snap ∈ (runM st calls).2,
        0 ≤ snap.overall_progress ∧ snap.overall_progress ≤ 100 := by
  induction calls with
  | nil =>
      intro st _ _ snap hmem
      simp [runM] at hmem
  | cons c cs ih =>
      intro st hall h0 snap hmem
      rw [List.all_cons, Bool.and_eq_true] at hall
      have hmem' : snap = (stepM st c).2 ∨ snap ∈ (runM (stepM st c).1 cs).2 := by
        simpa [runM] using hmem
      rcases hmem' with rfl | hmem'
      · rw [stepM_snap_overall]
        exact calc_overall_bounds _ (stepM_cfp_nonneg st c h0 hall.1)
      · exact ih (stepM st c).1 hall.2 (stepM_cfp_nonneg st c h0 hall.1)
          snap hmem'

/-- Refutes C2 as stated: with `total_files = 2`, the calls
`update_current_file(0, "a", 90, "downloading")`, `complete_file(0, "a",
True)`, `update_current_file(1, "b", 0, "downloading")` (all progress
arguments in `[0, 100]`, no cancel or error) write the overall-progress
sequence `[45, 95, 50]`, which decreases: `complete_file` leaves
`current_file_progress` at 90 (double-counting the finished file) and the
next `update_current_file` drops the stored value from 95 to 50. -/
theorem c2_counterexample :
    ((runM (MultiFileProgressTracker.init "job" 2)
        [MCall.ucf 0 "a" 90 "downloading" "", MCall.cf 0 "a" true none,
         MCall.ucf 1 "b" 0 "downloading" ""]).2.map (·.overall_progress))
      = [45, 95, 50] ∧
    ¬ ((95 : Int) ≤ 50) := by
  refine ⟨by decide, by decide⟩

/-- C2 amended: for every sequence of `update_current_file`/`complete_file`
calls whose progress arguments lie in `[0, 100]`, every `overall_progress`
value written to the store lies in `[0, 100]`; the written sequence is NOT
necessarily non-decreasing (see the counterexample). -/
theorem c2_overall_progress_in_range (id : String) (tf : Nat)
    (calls : List MCall) (hok : calls.all progressArgOk = true) :
    ∀ snap ∈ (runM (MultiFileProgressTracker.init id tf) calls).2,
      0 ≤ snap.overall_progress ∧ snap.overall_progress ≤ 100 :=
  runM_overall_bounds calls (MultiFileProgressTracker.init id tf) hok le_rfl

/-- Witness for C2 at a concrete call sequence. -/
theorem c2_overall_progress_in_range_witness :
    0 ≤ ((runM (MultiFileProgressTracker.init "wit" 2)
        [MCall.ucf 0 "a" 50 "downloading" ""]).2.getLastD
        { download_id := "", total_files := 0, completed_files := 0,
          failed_files := 0, current_file_index := 0,
          current_file_progress := 0, current_file_name := "",
          current_file_status := "", overall_progress := 0,
          overall_status := "", message := "", error := none,
          files_info := [] }).overall_progress ∧
    ((runM (MultiFileProgressTracker.init "wit" 2)
        [MCall.ucf 0 "a" 50 "downloading" ""]).2.getLastD
        { download_id := "", total_files := 0, completed_files := 0,
          failed_files := 0, current_file_index := 0,
          current_file_progress := 0, current_file_name := "",
          current_file_status := "", overall_progress := 0,
          overall_status := "", message := "", error := none,
          files_info := [] }).overall_progress ≤ 100 :=
  c2_overall_progress_in_range "wit" 2
    [MCall.ucf 0 "a" 50 "downloading" ""] (by decide)
    ((runM (MultiFileProgressTracker.init "wit" 2)
        [MCall.ucf 0 "a" 50 "downloading" ""]).2.getLastD
        { download_id := "", total_files := 0, completed_files := 0,
          failed_files := 0, current_file_index := 0,
          current_file_progress := 0, current_file_name := "",
          current_file_status := "", overall_progress := 0,
          overall_status := "", message := "", error := none,
          files_info := [] })
    (List.mem_singleton.mpr rfl)

/-! ## C4 -/

theorem stepM_counter_sum (st : MultiFileProgressTracker) (c : MCall) :
    ((stepM st c).1).completed_files + ((stepM st c).1).failed_files
      = st.completed_files + st.failed_files +
        (if isCompleteFileCall c then 1 else 0) := by
  cases c with
  | ucf i n p s m =>
      simp [stepM, MultiFileProgressTracker.update_current_file,
        isCompleteFileCall]
  | cf i n success e =>
      cases success <;>
        simp [stepM, MultiFileProgressTracker.complete_file,
          isCompleteFileCall] <;> omega

theorem runM_counter_sum (calls : List MCall) :
    ∀ st : MultiFileProgressTracker,
      ((runM st calls).1.completed_files + (runM st calls).1.failed_files
        = st.completed_files + st.failed_files +
          calls.countP isCompleteFileCall) ∧
      (∀ snap ∈ (runM st calls).2,
        snap.completed_files + snap.failed_files
          ≤ st.completed_files + st.failed_files +
            calls.countP isCompleteFileCall) := by
  induction calls with
  | nil =>
      intro st
      constructor
      · simp [runM]
      · intro snap hmem
        simp [runM] at hmem
  | cons c cs ih =>
      intro st
      have hstep := stepM_counter_sum st c
      have hcount := List.countP_cons isCompleteFileCall c cs
      constructor
      · have := (ih (stepM st c).1).1
        simp only [runM]
        rw [hcount] at *
        omega
      · intro snap hmem
        have hmem' : snap = (stepM st c).2 ∨
            snap ∈ (runM (stepM st c).1 cs).2 := by
          simpa [runM] using hmem
        rcases hmem' with rfl | hmem'
        · have hc := stepM_snap_counters st c
          rw [hcount, hc.1, hc.2.1]
          omega
        · have := (ih (stepM st c).1).2 snap hmem'
          rw [hcount]
          omega

/-- Refutes C4's invariant clause as stated: with `total_files = 1`, two
`complete_file(0, "a", True)` calls — both with the valid index `0 < 1` —
leave `completed_files = 2` and `failed_files = 0`, so
`completed_files + failed_files = 2 > 1 = total_files`. -/
theorem c4_counterexample :
    (((runM (MultiFileProgressTracker.init "job" 1)
        [MCall.cf 0 "a" true none, MCall.cf 0 "a" true none]).1.completed_files)
      = 2) ∧
    (((runM (MultiFileProgressTracker.init "job" 1)
        [MCall.cf 0 "a" true none, MCall.cf 0 "a" true none]).1.failed_files)
      = 0) ∧
    ([MCall.cf 0 "a" true none, MCall.cf 0 "a" true none].all
      (fun c => match c with
        | .cf i _ _ _ => decide (i < 1)
        | .ucf i _ _ _ _ => decide (i < 1)) = true) ∧
    ¬ (2 + 0 ≤ 1) := by
  refine ⟨by decide, by decide, by decide, by decide⟩

/-- C4 amended: `complete_file(i, name, True)` always increments
`completed_files` by exactly 1 and never decrements it; after any sequence
of `update_current_file`/`complete_file` calls, `completed_files +
failed_files` equals the number of `complete_file` calls in the sequence —
so the invariant `completed_files + failed_files ≤ total_files` holds (on
the tracker and on every written snapshot) exactly when at most
`total_files` many `complete_file` calls are made; valid indices alone do
not guarantee it. -/
theorem c4_complete_file_counters :
    (∀ (st : MultiFileProgressTracker) (i : Nat) (name : String)
        (err : Option String),
      ((st.complete_file i name true err).1).completed_files
        = st.completed_files + 1) ∧
    (∀ (st : MultiFileProgressTracker) (i : Nat) (name : String)
        (success : Bool) (err : Option String),
      st.completed_files ≤ ((st.complete_file i name success err).1).completed_files) ∧
    (∀ (id : String) (tf : Nat) (calls : List MCall),
      (runM (MultiFileProgressTracker.init id tf) calls).1.completed_files +
        (runM (MultiFileProgressTracker.init id tf) calls).1.failed_files
        = calls.countP isCompleteFileCall) ∧
    (∀ (id : String) (tf : Nat) (calls : List MCall),
      calls.countP isCompleteFileCall ≤ tf →
      ((runM (MultiFileProgressTracker.init id tf) calls).1.completed_files +
        (runM (MultiFileProgressTracker.init id tf) calls).1.failed_files ≤ tf) ∧
      (∀ snap ∈ (runM (MultiFileProgressTracker.init id tf) calls).2,
        snap.completed_files + snap.failed_files ≤ tf)) := by
  refine ⟨?_, ?_, ?_, ?_⟩
  · intro st i name err
    simp [MultiFileProgressTracker.complete_file]
  · intro st i name success err
    cases success <;> simp [MultiFileProgressTracker.complete_file]
  · intro id tf calls
    have h1 := (runM_counter_sum calls (MultiFileProgressTracker.init id tf)).1
    have hC : (MultiFileProgressTracker.init id tf).completed_files = 0 := rfl
    have hF : (MultiFileProgressTracker.init id tf).failed_files = 0 := rfl
    rw [hC, hF] at h1
    omega
  · intro id tf calls hle
    have h1 := (runM_counter_sum calls (MultiFileProgressTracker.init id tf)).1
    have h2 := (runM_counter_sum calls (MultiFileProgressTracker.init id tf)).2
    have hC : (MultiFileProgressTracker.init id tf).completed_files = 0 := rfl
    have hF : (MultiFileProgressTracker.init id tf).failed_files = 0 := rfl
    rw [hC, hF] at h1 h2
    constructor
    · omega
    · intro snap hmem
      have := h2 snap hmem
      omega

/-- Witness for C4 at a concrete call sequence. -/
theorem c4_complete_file_counters_witness :
    (runM (MultiFileProgressTracker.init "wit" 2)
        [MCall.cf 0 "a" true none]).1.completed_files +
      (runM (MultiFileProgressTracker.init "wit" 2)
        [MCall.cf 0 "a" true none]).1.failed_files ≤ 2 :=
  (c4_complete_file_counters.2.2.2 "wit" 2 [MCall.cf 0 "a" true none]
    (by decide)).1

/-! ## C3 -/

/-- Refutes C3 as stated: `ProgressTracker.update` performs no range check;
an out-of-range progress value (150) is written to the registry (the stored
snapshot changes from absent to a snapshot with `progress = 150`). -/
theorem c3_counterexample :
    (((ProgressTracker.init "job").update (fun _ => none) 150 "downloading"
        "msg" none none) "job"
      = some { progress := 150, status := "downloading", message := "msg",
               error := none, filename := none, cancelled := false }) ∧
    ¬ ((150 : Int) ≤ 100) ∧ ((fun _ => none : SStore) "job" = none) := by
  refine ⟨by decide, by decide, rfl⟩

/-- C3 amended: `update` validates nothing; for every progress value
(including out-of-range ones) it writes the full snapshot, with exactly the
given fields, to the registry. -/
theorem c3_update_never_validates (t : ProgressTracker) (store : SStore)
    (p : Int) (s m : String) (e f : Option String) :
    (t.update store p s m e f) t.download_id
      = some { progress := p, status := s, message := m, error := e,
               filename := f, cancelled := t.cancelled } := by
  simp [ProgressTracker.update]

/-! ## C5 -/

/-- Refutes C5 as stated: with a stored snapshot in the terminal status
`"completed"`, a subsequent tracker `update(50, "downloading", "m")`
overwrites the stored status with the non-terminal `"downloading"` — the
store enforces no terminal-state latch. -/
theorem c5_counterexample :
    (((fun j => if j = "job" then
          some { progress := 55, status := "completed", message := "done",
                 error := none, filename := none, cancelled := false }
        else none : SStore) "job").map (·.status) = some "completed") ∧
    isTerminal "completed" = true ∧
    ((((ProgressTracker.init "job").update
        (fun j => if j = "job" then
            some { progress := 55, status := "completed", message := "done",
                   error := none, filename := none, cancelled := false }
          else none)
        50 "downloading" "m" none none) "job").map (·.status)
      = some "downloading") ∧
    isTerminal "downloading" = false := by
  refine ⟨by decide, by decide, by decide, by decide⟩

/-- C5 amended: the `cancel_download` endpoint never moves a stored status
out of the terminal set (for a present id it always writes `"cancelled"`,
itself terminal, and for an absent id it writes nothing), but tracker
updates are unconditional overwrites: after `update(p, s, ...)` the stored
status is `s` even when the previously stored status was terminal, so a
terminal stored status does not persist across tracker updates. -/
theorem c5_no_terminal_latch :
    (∀ (store : SStore) (id : String) (d : SingleSnap), store id = some d →
      (((cancel_download store id).1 id).map (·.status) = some "cancelled") ∧
      isTerminal "cancelled" = true) ∧
    (∀ (store : SStore) (id : String), store id = none →
      (cancel_download store id).1 = store) ∧
    (∀ (t : ProgressTracker) (store : SStore) (p : Int) (s m : String)
        (e f : Option String) (d : SingleSnap),
      store t.download_id = some d → isTerminal d.status = true →
      ((t.update store p s m e f) t.download_id).map (·.status) = some s) := by
  refine ⟨?_, ?_, ?_⟩
  · intro store id d hd
    exact ⟨by simp [cancel_download, hd], by decide⟩
  · intro store id hd
    simp [cancel_download, hd]
  · intro t store p s m e f d _ _
    simp [ProgressTracker.update]

/-- Witness for C5 at a concrete terminal store entry. -/
theorem c5_no_terminal_latch_witness :
    (((ProgressTracker.init "job").update
        (fun j => if j = "job" then
            some { progress := 55, status := "completed", message := "done",
                   error := none, filename := none, cancelled := false }
          else none)
        50 "downloading" "m" none none) "job").map (·.status)
      = some "downloading" :=
  c5_no_terminal_latch.2.2 (ProgressTracker.init "job")
    (fun j => if j = "job" then
        some { progress := 55, status := "completed", message := "done",
               error := none, filename := none, cancelled := false }
      else none)
    50 "downloading" "m" none none
    { progress := 55, status := "completed", message := "done",
      error := none, filename := none, cancelled := false }
    (by decide) (by decide)

/-! ## C6 / C7: stream lemmas -/

theorem breaksSingle_elim {s : String} (h : breaksSingle s = false) :
    ¬s = "completed" ∧ ¬s = "success" ∧ ¬s = "error" ∧ ¬s = "failed" := by
  simpa [breaksSingle, and_assoc] using h

theorem breaksMulti_elim {s : String} (h : breaksMulti s = false) :
    ¬s = "completed" ∧ ¬s = "success" ∧ ¬s = "error" ∧ ¬s = "failed" ∧
      ¬s = "cancelled" := by
  simpa [breaksMulti, and_assoc] using h

theorem streamLoopS_missing (store : Nat → Option SingleSnap) (j : Nat) :
    ∀ (fuel iter : Nat) (last : Int), j < fuel →
      (∀ i, iter ≤ i → i < iter + j →
        ∃ d, store i = some d ∧ breaksSingle d.status = false) →
      store (iter + j) = none →
      ∃ pre, streamLoopS store last iter fuel
          = pre ++ [{ progress := 100, status := "completed" }] ∧
        ∀ e ∈ pre, e.status ≠ "error" := by
  induction j with
  | zero =>
      intro fuel iter last hj _ hnone
      cases fuel with
      | zero => omega
      | succ f =>
          rw [Nat.add_zero] at hnone
          refine ⟨[], ?_, by simp⟩
          simp [streamLoopS, hnone]
  | succ j ih =>
      intro fuel iter last hj hpre hnone
      cases fuel with
      | zero => omega
      | succ f =>
          obtain ⟨d, hd, hbreak⟩ := hpre iter le_rfl (by omega)
          obtain ⟨h1, h2, h3, h4⟩ := breaksSingle_elim hbreak
          obtain ⟨pre', hpre', herr'⟩ :=
            ih f (iter + 1)
              (if d.progress ≠ last ∨ iter = 0 then d.progress else last)
              (by omega)
              (fun i hi1 hi2 => hpre i (by omega) (by omega))
              (by
                have heq : iter + 1 + j = iter + (j + 1) := by omega
                rw [heq]
                exact hnone)
          refine ⟨(if d.progress ≠ last ∨ iter = 0 then
              [{ progress := d.progress, status := d.status }] else []) ++ pre',
            ?_, ?_⟩
          · simp only [streamLoopS, hd, h1, h2, h3, h4, or_self, if_false,
              false_or]
            rw [hpre', List.append_assoc]
          · intro e he
            rcases List.mem_append.1 he with he | he
            · rcases Decidable.em (d.progress ≠ last ∨ iter = 0) with hc | hc
              · rw [if_pos hc, List.mem_singleton] at he
                subst he
                exact h3
              · rw [if_neg hc] at he
                simp at he
            · exact herr' e he

theorem streamLoopMulti_missing (store : Nat → Option MultiSnap) (j : Nat) :
    ∀ (fuel iter : Nat) (last : Int), j < fuel →
      (∀ i, iter ≤ i → i < iter + j →
        ∃ d, store i = some d ∧ breaksMulti d.overall_status = false) →
      store (iter + j) = none →
      ∃ pre, streamLoopMulti store last iter fuel
          = pre ++ [{ progress := 100, status := "completed" }] ∧
        ∀ e ∈ pre, e.status ≠ "error" := by
  induction j with
  | zero =>
      intro fuel iter last hj _ hnone
      cases fuel with
      | zero => omega
      | succ f =>
          rw [Nat.add_zero] at hnone
          refine ⟨[], ?_, by simp⟩
          simp [streamLoopMulti, hnone]
  | succ j ih =>
      intro fuel iter last hj hpre hnone
      cases fuel with
      | zero => omega
      | succ f =>
          obtain ⟨d, hd, hbreak⟩ := hpre iter le_rfl (by omega)
          obtain ⟨h1, h2, h3, h4, h5⟩ := breaksMulti_elim hbreak
          obtain ⟨pre', hpre', herr'⟩ :=
            ih f (iter + 1)
              (if d.overall_progress ≠ last ∨ iter = 0 ∨ iter % 5 = 0 then
                d.overall_progress else last)
              (by omega)
              (fun i hi1 hi2 => hpre i (by omega) (by omega))
              (by
                have heq : iter + 1 + j = iter + (j + 1) := by omega
                rw [heq]
                exact hnone)
          refine ⟨(if d.overall_progress ≠ last ∨ iter = 0 ∨ iter % 5 = 0 then
              [{ progress := d.overall_progress, status := d.overall_status }]
            else []) ++ pre', ?_, ?_⟩
          · simp only [streamLoopMulti, hd, h1, h2, h3, h4, h5, or_self,
              if_false, false_or]
            rw [hpre', List.append_assoc]
          · intro e he
            rcases List.mem_append.1 he with he | he
            · rcases Decidable.em
                  (d.overall_progress ≠ last ∨ iter = 0 ∨ iter % 5 = 0) with
                hc | hc
              · rw [if_pos hc, List.mem_singleton] at he
                subst he
                exact h3
              · rw [if_neg hc] at he
                simp at he
            · exact herr' e he

theorem streamLoopS_ext (s1 s2 : Nat → Option SingleSnap) :
    ∀ (fuel iter : Nat) (last : Int),
      (∀ i, iter ≤ i → i < iter + fuel → s1 i = s2 i) →
      streamLoopS s1 last iter fuel = streamLoopS s2 last iter fuel := by
  intro fuel
  induction fuel with
  | zero => intro iter last _; rfl
  | succ f ih =>
      intro iter last h
      have hst : s1 iter = s2 iter := h iter le_rfl (by omega)
      cases hd : s2 iter with
      | none => simp only [streamLoopS, hst, hd]
      | some d =>
          simp only [streamLoopS, hst, hd]
          split_ifs <;> try rfl
          all_goals
            rw [ih (iter + 1) _ (fun i hi1 hi2 => h i (by omega) (by omega))]

theorem streamLoopMulti_ext (s1 s2 : Nat → Option MultiSnap) :
    ∀ (fuel iter : Nat) (last : Int),
      (∀ i, iter ≤ i → i < iter + fuel → s1 i = s2 i) →
      streamLoopMulti s1 last iter fuel = streamLoopMulti s2 last iter fuel := by
  intro fuel
  induction fuel with
  | zero => intro iter last _; rfl
  | succ f ih =>
      intro iter last h
      have hst : s1 iter = s2 iter := h iter le_rfl (by omega)
      cases hd : s2 iter with
      | none => simp only [streamLoopMulti, hst, hd]
      | some d =>
          simp only [streamLoopMulti, hst, hd]
          split_ifs <;> try rfl
          all_goals
            rw [ih (iter + 1) _ (fun i hi1 hi2 => h i (by omega) (by omega))]

theorem streamLoopMulti_timeout (store : Nat → Option MultiSnap) :
    ∀ (fuel iter : Nat) (last : Int),
      (∀ i, iter ≤ i → i < iter + fuel →
        ∃ d, store i = some d ∧ breaksMulti d.overall_status = false) →
      ∃ ys, streamLoopMulti store last iter fuel
        = ys ++ [{ progress := 0, status := "timeout" }] := by
  intro fuel
  induction fuel with
  | zero => intro iter last _; exact ⟨[], rfl⟩
  | succ f ih =>
      intro iter last h
      obtain ⟨d, hd, hbreak⟩ := h iter le_rfl (by omega)
      obtain ⟨h1, h2, h3, h4, h5⟩ := breaksMulti_elim hbreak
      obtain ⟨ys, hys⟩ :=
        ih (iter + 1)
          (if d.overall_progress ≠ last ∨ iter = 0 ∨ iter % 5 = 0 then
            d.overall_progress else last)
          (fun i hi1 hi2 => h i (by omega) (by omega))
      refine ⟨(if d.overall_progress ≠ last ∨ iter = 0 ∨ iter % 5 = 0 then
          [{ progress := d.overall_progress, status := d.overall_status }]
        else []) ++ ys, ?_⟩
      simp only [streamLoopMulti, hd, h1, h2, h3, h4, h5, or_self, if_false,
        false_or]
      rw [hys, List.append_assoc]

/-! ## C6 -/

/-- C6: if, for both streams, the registry entry is observed as absent at
some poll `k` within the iteration budget (all earlier polls seeing a
non-breaking entry), the stream emits a snapshot with status `completed` at
that poll and terminates — for the single-file stream the `completed` event
is followed only by the unconditional `stream_ended` trailer — and no event
of the stream has status `error`. -/
theorem c6_missing_entry_completes :
    (∀ (store : Nat → Option SingleSnap) (k : Nat), k < 600 →
      (∀ i, i < k → ∃ d, store i = some d ∧ breaksSingle d.status = false) →
      store k = none →
      (∃ pre, generate_progress_stream store
          = pre ++ [{ progress := 100, status := "completed" },
                    { progress := 100, status := "stream_ended" }]) ∧
      ∀ e ∈ generate_progress_stream store, e.status ≠ "error") ∧
    (∀ (store : Nat → Option MultiSnap) (k : Nat), k < 1800 →
      (∀ i, i < k →
        ∃ d, store i = some d ∧ breaksMulti d.overall_status = false) →
      store k = none →
      ((generate_multi_progress_stream store).getLastD
          { progress := 0, status := "" }
        = { progress := 100, status := "completed" }) ∧
      ∀ e ∈ generate_multi_progress_stream store, e.status ≠ "error") := by
  constructor
  · intro store k hk hpre hnone
    obtain ⟨pre, hpre', herr⟩ :=
      streamLoopS_missing store k 600 0 (-1) hk
        (fun i hi1 hi2 => hpre i (by omega))
        (by simpa using hnone)
    constructor
    · refine ⟨pre, ?_⟩
      unfold generate_progress_stream
      rw [hpre', List.append_assoc]
      rfl
    · intro e he
      unfold generate_progress_stream at he
      rw [hpre'] at he
      rcases List.mem_append.1 he with he | he
      · rcases List.mem_append.1 he with he | he
        · exact herr e he
        · have : e = { progress := 100, status := "completed" } := by
            simpa using he
          subst this
          decide
      · have : e = { progress := 100, status := "stream_ended" } := by
          simpa using he
        subst this
        decide
  · intro store k hk hpre hnone
    obtain ⟨pre, hpre', herr⟩ :=
      streamLoopMulti_missing store k 1800 0 (-1) hk
        (fun i hi1 hi2 => hpre i (by omega))
        (by simpa using hnone)
    constructor
    · unfold generate_multi_progress_stream
      rw [hpre']
      exact List.getLastD_concat _ _ _
    · intro e he
      unfold generate_multi_progress_stream at he
      rw [hpre'] at he
      rcases List.mem_append.1 he with he | he
      · exact herr e he
      · have : e = { progress := 100, status := "completed" } := by
          simpa using he
        subst this
        decide

/-- Witness for C6: a store whose entry exists (non-terminal) at poll 0 and
is gone at poll 1, for both streams. -/
theorem c6_missing_entry_completes_witness :
    (∀ e ∈ generate_progress_stream
        (fun i => if i = 0 then
            some { progress := 10, status := "downloading", message := "m",
                   error := none, filename := none, cancelled := false }
          else none),
      e.status ≠ "error") ∧
    ((generate_multi_progress_stream
        (fun i => if i = 0 then
            some { download_id := "j", total_files := 3, completed_files := 0,
                   failed_files := 0, current_file_index := 0,
                   current_file_progress := 10, current_file_name := "a",
                   current_file_status := "downloading", overall_progress := 3,
                   overall_status := "downloading", message := "m",
                   error := none, files_info := [] }
          else none)).getLastD { progress := 0, status := "" }
      = { progress := 100, status := "completed" }) :=
  ⟨(c6_missing_entry_completes.1
      (fun i => if i = 0 then
          some { progress := 10, status := "downloading", message := "m",
                 error := none, filename := none, cancelled := false }
        else none)
      1 (by decide)
      (fun i hi => ⟨{ progress := 10, status := "downloading", message := "m",
                      error := none, filename := none, cancelled := false },
        by
          have : i = 0 := by omega
          subst this
          exact ⟨rfl, rfl⟩⟩)
      (by decide)).2,
   (c6_missing_entry_completes.2
      (fun i => if i = 0 then
          some { download_id := "j", total_files := 3, completed_files := 0,
                 failed_files := 0, current_file_index := 0,
                 current_file_progress := 10, current_file_name := "a",
                 current_file_status := "downloading", overall_progress := 3,
                 overall_status := "downloading", message := "m",
                 error := none, files_info := [] }
        else none)
      1 (by decide)
      (fun i hi => ⟨{ download_id := "j", total_files := 3,
                      completed_files := 0, failed_files := 0,
                      current_file_index := 0, current_file_progress := 10,
                      current_file_name := "a",
                      current_file_status := "downloading",
                      overall_progress := 3, overall_status := "downloading",
                      message := "m", error := none, files_info := [] },
        by
          have : i = 0 := by omega
          subst this
          exact ⟨rfl, rfl⟩⟩)
      (by decide)).1⟩

/-! ## C7 -/

set_option maxRecDepth 40000 in
/-- Refutes C7 as stated for the single-file stream: with a store that is
always present and never terminal, the 600-iteration budget is exhausted and
the final event is the unconditional `stream_ended` event — not a synthetic
`timeout` state. -/
theorem c7_counterexample :
    ((generate_progress_stream
        (fun _ => some { progress := 10, status := "downloading",
                         message := "m", error := none, filename := none,
                         cancelled := false })).getLastD
        { progress := 0, status := "" }
      = { progress := 100, status := "stream_ended" }) ∧
    ("stream_ended" : String) ≠ "timeout" := by
  exact ⟨by decide, by decide⟩

/-- C7 amended: each stream polls at most its fixed iteration budget (600
single-file, 1800 multi-file: the output depends only on the store's first
600 resp. 1800 polled values); on budget exhaustion without a terminal state
the multi-file stream emits a synthetic `timeout` state as its final event,
while the single-file stream's final event is always its unconditional
`stream_ended` trailer (never a `timeout`). -/
theorem c7_iteration_budgets :
    (∀ s1 s2 : Nat → Option SingleSnap, (∀ i, i < 600 → s1 i = s2 i) →
      generate_progress_stream s1 = generate_progress_stream s2) ∧
    (∀ s1 s2 : Nat → Option MultiSnap, (∀ i, i < 1800 → s1 i = s2 i) →
      generate_multi_progress_stream s1 = generate_multi_progress_stream s2) ∧
    (∀ store : Nat → Option SingleSnap,
      (generate_progress_stream store).getLastD { progress := 0, status := "" }
        = { progress := 100, status := "stream_ended" }) ∧
    (∀ store : Nat → Option MultiSnap,
      (∀ i, i < 1800 →
        ∃ d, store i = some d ∧ breaksMulti d.overall_status = false) →
      (generate_multi_progress_stream store).getLastD
          { progress := 0, status := "" }
        = { progress := 0, status := "timeout" }) := by
  refine ⟨?_, ?_, ?_, ?_⟩
  · intro s1 s2 h
    unfold generate_progress_stream
    rw [streamLoopS_ext s1 s2 600 0 (-1) (fun i hi1 hi2 => h i (by omega))]
  · intro s1 s2 h
    unfold generate_multi_progress_stream
    rw [streamLoopMulti_ext s1 s2 1800 0 (-1) (fun i hi1 hi2 => h i (by omega))]
  · intro store
    unfold generate_progress_stream
    exact List.getLastD_concat _ _ _
  · intro store h
    obtain ⟨ys, hys⟩ :=
      streamLoopMulti_timeout store 1800 0 (-1)
        (fun i hi1 hi2 => h i (by omega))
    unfold generate_multi_progress_stream
    rw [hys]
    exact List.getLastD_concat _ _ _

/-- Witness for C7: the budget-extensionality at two stores that differ only
beyond the budget, and the exhaustion behavior at constant non-terminal
stores. -/
theorem c7_iteration_budgets_witness :
    (generate_progress_stream
        (fun _ => some { progress := 10, status := "downloading",
                         message := "m", error := none, filename := none,
                         cancelled := false })
      = generate_progress_stream
          (fun i => if i = 700 then none
            else some { progress := 10, status := "downloading",
                        message := "m", error := none, filename := none,
                        cancelled := false })) ∧
    ((generate_multi_progress_stream
        (fun _ => some { download_id := "j", total_files := 3,
                         completed_files := 0, failed_files := 0,
                         current_file_index := 0, current_file_progress := 10,
                         current_file_name := "a",
                         current_file_status := "downloading",
                         overall_progress := 3,
                         overall_status := "downloading", message := "m",
                         error := none, files_info := [] })).getLastD
        { progress := 0, status := "" }
      = { progress := 0, status := "timeout" }) :=
  ⟨c7_iteration_budgets.1 _ _
      (fun i hi => by
        rw [if_neg (by omega)]),
   c7_iteration_budgets.2.2.2 _
      (fun i hi => ⟨{ download_id := "j", total_files := 3,
                      completed_files := 0, failed_files := 0,
                      current_file_index := 0, current_file_progress := 10,
                      current_file_name := "a",
                      current_file_status := "downloading",
                      overall_progress := 3, overall_status := "downloading",
                      message := "m", error := none, files_info := [] },
        rfl, rfl⟩)⟩

/-! ## C8 -/

theorem spotdlLine_tracker_id (total : Nat) (tracks : List String)
    (s : SpotLoopState) (line : String) :
    ((spotdlLine total tracks s line).tracker).download_id
      = s.tracker.download_id := by
  unfold spotdlLine
  dsimp only
  split_ifs <;> rfl

theorem foldl_spot_tracker_id (total : Nat) (tracks lines : List String) :
    ∀ s : SpotLoopState,
      ((lines.foldl (spotdlLine total tracks) s).tracker).download_id
        = s.tracker.download_id := by
  induction lines with
  | nil => intro s; rfl
  | cons l ls ih =>
      intro s
      rw [List.foldl_cons, ih, spotdlLine_tracker_id]

theorem spotdlLine_counter_inv (total : Nat) (tracks : List String)
    (s : SpotLoopState) (line : String)
    (hc : s.tracker.completed_files = s.completed_files)
    (hf : s.tracker.failed_files = s.failed_files) :
    ((spotdlLine total tracks s line).tracker).completed_files
        = (spotdlLine total tracks s line).completed_files ∧
      ((spotdlLine total tracks s line).tracker).failed_files
        = (spotdlLine total tracks s line).failed_files := by
  unfold spotdlLine
  dsimp only
  split_ifs <;>
    simp_all [MultiFileProgressTracker.complete_file,
      MultiFileProgressTracker.update_current_file]

theorem foldl_spot_counter_inv (total : Nat) (tracks lines : List String) :
    ∀ s : SpotLoopState,
      s.tracker.completed_files = s.completed_files →
      s.tracker.failed_files = s.failed_files →
      ((lines.foldl (spotdlLine total tracks) s).tracker).completed_files
          = (lines.foldl (spotdlLine total tracks) s).completed_files ∧
        ((lines.foldl (spotdlLine total tracks) s).tracker).failed_files
          = (lines.foldl (spotdlLine total tracks) s).failed_files := by
  induction lines with
  | nil => intro s hc hf; exact ⟨hc, hf⟩
  | cons l ls ih =>
      intro s hc hf
      rw [List.foldl_cons]
      obtain ⟨hc', hf'⟩ := spotdlLine_counter_inv total tracks s l hc hf
      exact ih _ hc' hf'

theorem update_overall_write (st : MultiFileProgressTracker) (store : MStore)
    (status msg : String) (e : Option String) (id : String)
    (hid : st.download_id = id) :
    writeM store ((st.update_overall status msg e).1).download_id
      ((st.update_overall status msg e).2) id
      = some ((st.update_overall status msg e).2) := by
  subst hid
  simp [writeM, MultiFileProgressTracker.update_overall]

/-- C8: in `_download_spotify_multiple`, whenever the final stored snapshot
has `completed_files > 0` and `failed_files > 0` (at least one success and
at least one failure), its `overall_status` is `"completed"` — a partial
success, not an error/failed state — and the same holds for the completion
bookkeeping of `_download_youtube_multiple`. -/
theorem c8_partial_success :
    (∀ (id : String) (total : Nat) (tracks lines : List String)
        (store0 : MStore) (r : SpotLoopState),
      r = download_spotify_multiple (MultiFileProgressTracker.init id total)
            store0 total tracks lines →
      0 < r.completed_files → 0 < r.failed_files →
      ((r.store id).map (·.overall_status) = some "completed") ∧
      ((r.store id).map (·.completed_files) = some r.completed_files) ∧
      ((r.store id).map (·.failed_files) = some r.failed_files)) ∧
    (∀ (st : MultiFileProgressTracker) (store : MStore)
        (completed total : Nat), 0 < completed →
      ((youtube_finalize st store completed total) st.download_id).map
          (·.overall_status) = some "completed") := by
  constructor
  · intro id total tracks lines store0 r hr h1 h2
    have hinv := foldl_spot_counter_inv total tracks lines
      { completed_files := 0, failed_files := 0, current_file_index := 0
        tracker := ((MultiFileProgressTracker.init id total).update_overall
          "downloading"
          ("Descargando " ++ toString total ++ " archivos de Spotify") none).1
        store := writeM store0
          (((MultiFileProgressTracker.init id total).update_overall
            "downloading"
            ("Descargando " ++ toString total ++ " archivos de Spotify")
            none).1).download_id
          (((MultiFileProgressTracker.init id total).update_overall
            "downloading"
            ("Descargando " ++ toString total ++ " archivos de Spotify")
            none).2) }
      rfl rfl
    have hid := foldl_spot_tracker_id total tracks lines
      { completed_files := 0, failed_files := 0, current_file_index := 0
        tracker := ((MultiFileProgressTracker.init id total).update_overall
          "downloading"
          ("Descargando " ++ toString total ++ " archivos de Spotify") none).1
        store := writeM store0
          (((MultiFileProgressTracker.init id total).update_overall
            "downloading"
            ("Descargando " ++ toString total ++ " archivos de Spotify")
            none).1).download_id
          (((MultiFileProgressTracker.init id total).update_overall
            "downloading"
            ("Descargando " ++ toString total ++ " archivos de Spotify")
            none).2) }
    rw [hr] at h1 h2 ⊢
    unfold download_spotify_multiple at h1 h2 ⊢
    dsimp only at h1 h2 ⊢
    rw [if_pos h1]
    rw [update_overall_write _ _ _ _ _ id (hid.trans rfl)]
    exact ⟨rfl, congrArg (fun n => some n) hinv.1,
      congrArg (fun n => some n) hinv.2⟩
  · intro st store completed total h
    unfold youtube_finalize
    dsimp only
    rw [if_pos h]
    simp [writeM, MultiFileProgressTracker.update_overall]

/-- Witness for C8: the transcript `["Downloaded A", "Skipping B"]` over two
tracks gives one success and one failure and a final stored status of
`"completed"`. -/
theorem c8_partial_success_witness :
    ((download_spotify_multiple (MultiFileProgressTracker.init "j" 2)
        (fun _ => none) 2 ["A", "B"]
        ["Downloaded A", "Skipping B"]).store "j").map (·.overall_status)
      = some "completed" :=
  (c8_partial_success.1 "j" 2 ["A", "B"] ["Downloaded A", "Skipping B"]
    (fun _ => none)
    (download_spotify_multiple (MultiFileProgressTracker.init "j" 2)
      (fun _ => none) 2 ["A", "B"] ["Downloaded A", "Skipping B"])
    rfl (by decide) (by decide)).1

/-! ## C9 -/

/-- C9: `get_progress_tracker` returns a freshly constructed
`ProgressTracker` whose `is_cancelled()` is `False` regardless of the stored
snapshot — in particular even after `cancel_download` has set the stored
entry's `status` to `"cancelled"` and its `cancelled` field to `True`. -/
theorem c9_fresh_tracker_not_cancelled :
    (∀ (store : SStore) (id : String), (store id).isSome →
      get_progress_tracker store id = some (ProgressTracker.init id)) ∧
    (∀ (store : SStore) (id : String) (t : ProgressTracker),
      get_progress_tracker store id = some t → t.is_cancelled = false) ∧
    (∀ (store : SStore) (id : String) (d : SingleSnap), store id = some d →
      (((cancel_download store id).1 id).map (·.cancelled) = some true) ∧
      (((cancel_download store id).1 id).map (·.status) = some "cancelled") ∧
      ∀ t : ProgressTracker,
        get_progress_tracker (cancel_download store id).1 id = some t →
        t.is_cancelled = false) := by
  refine ⟨?_, ?_, ?_⟩
  · intro store id h
    simp [get_progress_tracker, h]
  · intro store id t h
    unfold get_progress_tracker at h
    by_cases hs : (store id).isSome
    · simp only [hs, if_true, Option.some.injEq] at h
      subst h
      rfl
    · simp [hs] at h
  · intro store id d hd
    refine ⟨?_, ?_, ?_⟩
    · simp [cancel_download, hd]
    · simp [cancel_download, hd]
    · intro t ht
      unfold get_progress_tracker at ht
      by_cases hs : (((cancel_download store id).1) id).isSome
      · simp only [hs, if_true, Option.some.injEq] at ht
        subst ht
        rfl
      · simp [hs] at ht

/-- Witness for C9 at a concrete store holding one cancelled entry. -/
theorem c9_fresh_tracker_not_cancelled_witness :
    ∀ t : ProgressTracker,
      get_progress_tracker
        (cancel_download
          (fun j => if j = "job" then
              some { progress := 40, status := "downloading", message := "m",
                     error := none, filename := none, cancelled := false }
            else none)
          "job").1 "job" = some t →
      t.is_cancelled = false :=
  (c9_fresh_tracker_not_cancelled.2.2
    (fun j => if j = "job" then
        some { progress := 40, status := "downloading", message := "m",
               error := none, filename := none, cancelled := false }
      else none)
    "job"
    { progress := 40, status := "downloading", message := "m",
      error := none, filename := none, cancelled := false }
    (by decide)).2.2

/-! ## C10 -/

/-- C10: for a present job id, `cancel_download` rewrites exactly the three
keys `status`, `message` and `cancelled` of the stored snapshot (so
`progress` and all remaining fields are unchanged), touches no other id, and
— by contrast — the tracker's own `cancel()` resets the stored `progress` to
0. -/
theorem c10_cancel_endpoint_frame :
    (∀ (store : SStore) (id : String) (d : SingleSnap), store id = some d →
      ((cancel_download store id).1 id
        = some { d with status := "cancelled", message := "Descarga cancelada",
                        cancelled := true }) ∧
      (((cancel_download store id).1 id).map (·.progress) = some d.progress) ∧
      (∀ j, j ≠ id → (cancel_download store id).1 j = store j)) ∧
    (∀ (t : ProgressTracker) (store : SStore),
      ((t.cancel store).2) t.download_id
        = some { progress := 0, status := "cancelled",
                 message := "Descarga cancelada",
                 error := some "Operación cancelada por el usuario",
                 filename := none, cancelled := true }) := by
  constructor
  · intro store id d hd
    refine ⟨?_, ?_, ?_⟩
    · simp [cancel_download, hd]
    · simp [cancel_download, hd]
    · intro j hj
      simp [cancel_download, hd, hj]
  · intro t store
    simp [ProgressTracker.cancel, ProgressTracker.update]

/-- Witness for C10 at a concrete store entry. -/
theorem c10_cancel_endpoint_frame_witness :
    (cancel_download
        (fun j => if j = "job" then
            some { progress := 73, status := "downloading", message := "m",
                   error := none, filename := some "f.mp3", cancelled := false }
          else none)
        "job").1 "job"
      = some { progress := 73, status := "cancelled",
               message := "Descarga cancelada", error := none,
               filename := some "f.mp3", cancelled := true } :=
  (c10_cancel_endpoint_frame.1
    (fun j => if j = "job" then
        some { progress := 73, status := "downloading", message := "m",
               error := none, filename := some "f.mp3", cancelled := false }
      else none)
    "job"
    { progress := 73, status := "downloading", message := "m",
      error := none, filename := some "f.mp3", cancelled := false }
    (by decide)).1

end LocalSongs
